import Mathlib

/-!
Shallow embedding of `geoalchemy/spatialite.py`: the SpatiaLite dialect layer of
GeoAlchemy.  The embedded pieces are the version capability gate
`SQLiteSpatialDialect.supports_rtree`, the distance-rewrite routine
`sqlite_functions._within_distance`, the column lifecycle hooks
`handle_ddl_before_drop` / `handle_ddl_after_create`, and the attribute
resolution chains of `SQLiteComparator` and `SQLitePersistentSpatialElement`.

SQL expression trees built by the Python code (via `func`, `and_`, `select`,
`table`, `column`, `text`) are modelled as inductive ASTs; the statements the
DDL hooks execute against the connection are modelled as a list of statement
values in execution order.
-/

/-- A table as seen through the column objects: SQLAlchemy exposes both a plain
`name` and a `fullname` (schema-qualified when a schema is set). The source
reads both attributes, so both are kept. -/
structure GeomTable where
  name : String
  fullname : String
deriving DecidableEq, Repr

/-- The geometry type attached to a column: `spatial_index`, `srid`, geometry
subtype `name` and `dimension`, as read by `spatialite.py`. -/
structure GeometryType where
  spatial_index : Bool
  srid : Int
  name : String
  dimension : Nat
deriving DecidableEq, Repr

/-- A `GeometryExtensionColumn`: the source reads `geom1.table`, `geom1.key`,
`geom1.type` in the rewrite and `column.name`, `column.type`, `column.nullable`
in the DDL hooks, so all of these are fields. -/
structure GeometryExtensionColumn where
  table : GeomTable
  key : String
  name : String
  type : GeometryType
  nullable : Bool
deriving DecidableEq, Repr

/-- A geometry operand of `_within_distance`: either a direct
`GeometryExtensionColumn` reference (the `isinstance` branch) or any other
expression (function result, bound literal, ...), kept opaque. -/
inductive Geom where
  | col (c : GeometryExtensionColumn)
  | other (id : String)
deriving DecidableEq, Repr

/-- Numeric SQL expressions occurring in the rewrite: `Distance(g1, g2)`,
`MbrMinX/MbrMaxX/MbrMinY/MbrMaxY(g)`, the bound `distance` value, and the
`-`/`+` arithmetic applied to it. -/
inductive NumExpr where
  | dist (g1 g2 : Geom)
  | mbrMinX (g : Geom)
  | mbrMaxX (g : Geom)
  | mbrMinY (g : Geom)
  | mbrMaxY (g : Geom)
  | lit (q : ℚ)
  | sub (a b : NumExpr)
  | add (a b : NumExpr)
deriving DecidableEq, Repr

/-- Boolean SQL expressions built by `_within_distance`: `a <= b` on numeric
expressions, `text(col) >= e` and `text(col) <= e` comparisons inside the index
subquery, conjunction, and the membership test
`rowid IN (SELECT pkid FROM idx_... WHERE cond)`. -/
inductive BoolExpr where
  | le (a b : NumExpr)
  | colGe (col : String) (b : NumExpr)
  | colLe (col : String) (b : NumExpr)
  | and_ (a b : BoolExpr)
  | rowidIn (tableName rowidCol idxRelation pkCol : String) (cond : BoolExpr)
deriving DecidableEq, Repr

/-- The dialect object: the source reads `server_version_info[0]` and
`server_version_info[1]`; the tuple is modelled as (major, minor, patch). -/
structure Dialect where
  server_version_info : Nat × Nat × Nat
deriving DecidableEq, Repr

/-- The compiler context passed to `_within_distance`; only its `dialect`
attribute is read. -/
structure Compiler where
  dialect : Dialect
deriving DecidableEq, Repr

/-- The connection (`bind`) passed to the DDL hooks; only its `dialect`
attribute is read. -/
structure Connection where
  dialect : Dialect
deriving DecidableEq, Repr

/-- `SQLiteSpatialDialect.supports_rtree` (spatialite.py lines 119-123):
`dialect.server_version_info[0] > 3 or (dialect.server_version_info[0] == 3 and
dialect.server_version_info[1] <= 6)`. -/
def SQLiteSpatialDialect.supports_rtree (dialect : Dialect) : Bool :=
  decide (dialect.server_version_info.1 > 3) ||
    (decide (dialect.server_version_info.1 = 3) &&
     decide (dialect.server_version_info.2.1 ≤ 6))

/-- The index relation name interpolated in the rewrite's subquery
(spatialite.py line 60): `"idx_%s_%s" % (geom1.table.fullname, geom1.key)`. -/
def rewrite_index_relation (c : GeometryExtensionColumn) : String :=
  "idx_" ++ c.table.fullname ++ "_" ++ c.key

/-- The WHERE condition of the index subquery (spatialite.py lines 61-64):
`xmin >= MbrMinX(geom2) - distance AND (xmax <= MbrMaxX(geom2) + distance AND
(ymin >= MbrMinY(geom2) - distance AND ymax <= MbrMaxY(geom2) + distance))`. -/
def index_filter_condition (geom2 : Geom) (distance : ℚ) : BoolExpr :=
  BoolExpr.and_
    (BoolExpr.colGe "xmin" (NumExpr.sub (NumExpr.mbrMinX geom2) (NumExpr.lit distance)))
    (BoolExpr.and_
      (BoolExpr.colLe "xmax" (NumExpr.add (NumExpr.mbrMaxX geom2) (NumExpr.lit distance)))
      (BoolExpr.and_
        (BoolExpr.colGe "ymin" (NumExpr.sub (NumExpr.mbrMinY geom2) (NumExpr.lit distance)))
        (BoolExpr.colLe "ymax" (NumExpr.add (NumExpr.mbrMaxY geom2) (NumExpr.lit distance)))))

/-- `sqlite_functions._within_distance` (spatialite.py lines 48-70).  When
`geom1` is a `GeometryExtensionColumn` whose type has `spatial_index` set and
the dialect supports the R-tree, it returns the conjunction of the exact
distance predicate with the `rowid IN (SELECT pkid FROM idx_... WHERE ...)`
membership test; otherwise just `Distance(geom1, geom2) <= distance`. -/
def sqlite_functions._within_distance (compiler : Compiler) (geom1 geom2 : Geom)
    (distance : ℚ) : BoolExpr :=
  match geom1 with
  | Geom.col c =>
    if c.type.spatial_index && SQLiteSpatialDialect.supports_rtree compiler.dialect then
      BoolExpr.and_
        (BoolExpr.le (NumExpr.dist geom1 geom2) (NumExpr.lit distance))
        (BoolExpr.rowidIn c.table.fullname "rowid" (rewrite_index_relation c) "pkid"
          (index_filter_condition geom2 distance))
    else
      BoolExpr.le (NumExpr.dist geom1 geom2) (NumExpr.lit distance)
  | Geom.other i =>
      BoolExpr.le (NumExpr.dist (Geom.other i) geom2) (NumExpr.lit distance)

/-- Statements executed by the DDL hooks, in the order `bind.execute` is
called. -/
inductive Stmt where
  | addGeometryColumn (tableName colName : String) (srid : Int)
      (typeName : String) (dimension : Nat) (notNullFlag : Nat)
  | createSpatialIndex (tableName colName : String)
  | vacuum (tableName : String)
  | disableSpatialIndex (tableName colName : String)
  | dropTable (relation : String)
  | discardGeometryColumn (tableName colName : String)
deriving DecidableEq, Repr

/-- The auxiliary index relation dropped by `handle_ddl_before_drop`
(spatialite.py line 104): `"DROP TABLE idx_%s_%s" % (table.name, column.name)`. -/
def drop_index_relation (table : GeomTable) (column : GeometryExtensionColumn) : String :=
  "idx_" ++ table.name ++ "_" ++ column.name

/-- `SQLiteSpatialDialect.handle_ddl_before_drop` (spatialite.py lines 101-106):
if the column has a spatial index and the dialect supports the R-tree, execute
`DisableSpatialIndex` then `DROP TABLE idx_<name>_<col>`; in every case execute
`DiscardGeometryColumn` last. -/
def SQLiteSpatialDialect.handle_ddl_before_drop (bind : Connection) (table : GeomTable)
    (column : GeometryExtensionColumn) : List Stmt :=
  (if column.type.spatial_index && SQLiteSpatialDialect.supports_rtree bind.dialect then
    [Stmt.disableSpatialIndex table.name column.name,
     Stmt.dropTable (drop_index_relation table column)]
  else []) ++
  [Stmt.discardGeometryColumn table.name column.name]

/-- `SQLiteSpatialDialect.handle_ddl_after_create` (spatialite.py lines 108-117):
execute `AddGeometryColumn(table.name, column.name, srid, type name, dimension,
0 if column.nullable else 1)`; then, if the column has a spatial index and the
dialect supports the R-tree, `CreateSpatialIndex` then `VACUUM`. -/
def SQLiteSpatialDialect.handle_ddl_after_create (bind : Connection) (table : GeomTable)
    (column : GeometryExtensionColumn) : List Stmt :=
  [Stmt.addGeometryColumn table.name column.name column.type.srid column.type.name
    column.type.dimension (if column.nullable then 0 else 1)] ++
  (if column.type.spatial_index && SQLiteSpatialDialect.supports_rtree bind.dialect then
    [Stmt.createSpatialIndex table.name column.name,
     Stmt.vacuum table.name]
  else [])

/-- A valuation of the opaque geometry quantities appearing in the SQL
expressions: the value of `Distance` and of the four MBR accessors on each
geometry operand. -/
structure GeomEnv where
  distVal : Geom → Geom → ℚ
  minX : Geom → ℚ
  maxX : Geom → ℚ
  minY : Geom → ℚ
  maxY : Geom → ℚ

/-- Evaluation of a numeric SQL expression under a valuation of the geometry
quantities. -/
def NumExpr.eval (env : GeomEnv) : NumExpr → ℚ
  | NumExpr.dist g1 g2 => env.distVal g1 g2
  | NumExpr.mbrMinX g => env.minX g
  | NumExpr.mbrMaxX g => env.maxX g
  | NumExpr.mbrMinY g => env.minY g
  | NumExpr.mbrMaxY g => env.maxY g
  | NumExpr.lit q => q
  | NumExpr.sub a b => a.eval env - b.eval env
  | NumExpr.add a b => a.eval env + b.eval env

/-- Extracts the four bound expressions (lower x, upper x, lower y, upper y)
from a WHERE condition shaped like the index subquery filter; `none` on any
other shape. -/
def boundsOf : BoolExpr → Option (NumExpr × NumExpr × NumExpr × NumExpr)
  | BoolExpr.and_ (BoolExpr.colGe "xmin" a)
      (BoolExpr.and_ (BoolExpr.colLe "xmax" b)
        (BoolExpr.and_ (BoolExpr.colGe "ymin" c) (BoolExpr.colLe "ymax" d))) =>
      some (a, b, c, d)
  | _ => none

/-- The attribute names defined directly on the `sqlite_functions` class
(spatialite.py lines 34-70): `svg`, `fgf`, `is_valid` and the static method
`_within_distance`. -/
def sqlite_own_attr (name : String) : Option String :=
  if name == "svg" || name == "fgf" || name == "is_valid" || name == "_within_distance" then
    some ("sqlite_functions." ++ name)
  else
    none

/-- Modelled from the spec: `SpatialComparator.__getattr__` (geoalchemy/base.py,
not part of this repository's source) resolves an operation name against the
shared base spatial-operations set common to all dialects, raising
AttributeError (here `none`) when the set has no such operation.  The base set
itself is a parameter `baseCommon`. -/
def SpatialComparator_getattr (baseCommon : String → Option String)
    (name : String) : Option String :=
  baseCommon name

/-- Modelled from the spec: `PersistentSpatialElement.__getattr__`
(geoalchemy/base.py, not part of this repository's source) resolves against the
same shared base spatial-operations set. -/
def PersistentSpatialElement_getattr (baseCommon : String → Option String)
    (name : String) : Option String :=
  baseCommon name

/-- `getattr(sqlite_functions, name)`: class attribute lookup walks the class
chain declared in the source (`class sqlite_functions(mysql_functions)`,
spatialite.py line 35) — first the attributes defined on `sqlite_functions`
itself, then the MySQL-dialect set, then (modelled from the spec: the
MySQL-dialect function class geoalchemy/mysql.py is not part of this
repository's source, and the spec states both adapters fall back to a shared
base spatial-operations set common to all dialects before signaling an
attribute-resolution failure) the shared base set, and fails with
AttributeError (`none`) only after all of them. -/
def sqlite_functions_getattr (mysqlOwn baseCommon : String → Option String)
    (name : String) : Option String :=
  (sqlite_own_attr name).orElse fun _ =>
    (mysqlOwn name).orElse fun _ => baseCommon name

/-- `SQLiteComparator.__getattr__` (spatialite.py lines 14-18): try
`SpatialComparator.__getattr__` and, on AttributeError, resolve through
`getattr(sqlite_functions, name)`; `none` models the final AttributeError. -/
def SQLiteComparator_getattr (mysqlOwn baseCommon : String → Option String)
    (name : String) : Option String :=
  (SpatialComparator_getattr baseCommon name).orElse fun _ =>
    sqlite_functions_getattr mysqlOwn baseCommon name

/-- `SQLitePersistentSpatialElement.__getattr__` (spatialite.py lines 27-31):
try `PersistentSpatialElement.__getattr__` and, on AttributeError, resolve
through `getattr(sqlite_functions, name)`. -/
def SQLitePersistentSpatialElement_getattr (mysqlOwn baseCommon : String → Option String)
    (name : String) : Option String :=
  (PersistentSpatialElement_getattr baseCommon name).orElse fun _ =>
    sqlite_functions_getattr mysqlOwn baseCommon name

/-- A sample spatially indexed column on table `roads` (no schema, key equals
name), mirroring the spec scenario. -/
def roadsGeom : GeometryExtensionColumn :=
  { table := { name := "roads", fullname := "roads" }
    key := "geom"
    name := "geom"
    type := { spatial_index := true, srid := 4326, name := "LINESTRING", dimension := 2 }
    nullable := false }

/-- A sample column whose table is schema-qualified, so `table.fullname`
differs from `table.name`. -/
def schemaRoadsGeom : GeometryExtensionColumn :=
  { table := { name := "roads", fullname := "main.roads" }
    key := "geom"
    name := "geom"
    type := { spatial_index := true, srid := 4326, name := "LINESTRING", dimension := 2 }
    nullable := true }

/-- C1: when `geom1` is a geometry column whose type has `spatial_index = true`
and `supports_rtree(compiler.dialect)` holds, `_within_distance` returns the
conjunction of `Distance(geom1, geom2) <= distance` with the membership test of
the table rowid in `SELECT pkid FROM idx_<table>_<column> WHERE xmin >=
MbrMinX(geom2) - distance AND xmax <= MbrMaxX(geom2) + distance AND ymin >=
MbrMinY(geom2) - distance AND ymax <= MbrMaxY(geom2) + distance`. -/
theorem within_distance_indexed_form (compiler : Compiler)
    (c : GeometryExtensionColumn) (geom2 : Geom) (distance : ℚ)
    (hidx : c.type.spatial_index = true)
    (hrtree : SQLiteSpatialDialect.supports_rtree compiler.dialect = true) :
    sqlite_functions._within_distance compiler (Geom.col c) geom2 distance =
      BoolExpr.and_
        (BoolExpr.le (NumExpr.dist (Geom.col c) geom2) (NumExpr.lit distance))
        (BoolExpr.rowidIn c.table.fullname "rowid"
          ("idx_" ++ c.table.fullname ++ "_" ++ c.key) "pkid"
          (BoolExpr.and_
            (BoolExpr.colGe "xmin"
              (NumExpr.sub (NumExpr.mbrMinX geom2) (NumExpr.lit distance)))
            (BoolExpr.and_
              (BoolExpr.colLe "xmax"
                (NumExpr.add (NumExpr.mbrMaxX geom2) (NumExpr.lit distance)))
              (BoolExpr.and_
                (BoolExpr.colGe "ymin"
                  (NumExpr.sub (NumExpr.mbrMinY geom2) (NumExpr.lit distance)))
                (BoolExpr.colLe "ymax"
                  (NumExpr.add (NumExpr.mbrMaxY geom2) (NumExpr.lit distance))))))) := by
  simp [sqlite_functions._within_distance, hidx, hrtree, rewrite_index_relation,
    index_filter_condition]

/-- C1 witness: the indexed form at the spec scenario `roads.geom`, a point and
distance 50 on a 3.6.0 connection. -/
theorem within_distance_indexed_form_witness :
    sqlite_functions._within_distance ⟨⟨(3, 6, 0)⟩⟩ (Geom.col roadsGeom)
        (Geom.other "point") 50 =
      BoolExpr.and_
        (BoolExpr.le (NumExpr.dist (Geom.col roadsGeom) (Geom.other "point"))
          (NumExpr.lit 50))
        (BoolExpr.rowidIn "roads" "rowid" "idx_roads_geom" "pkid"
          (BoolExpr.and_
            (BoolExpr.colGe "xmin"
              (NumExpr.sub (NumExpr.mbrMinX (Geom.other "point")) (NumExpr.lit 50)))
            (BoolExpr.and_
              (BoolExpr.colLe "xmax"
                (NumExpr.add (NumExpr.mbrMaxX (Geom.other "point")) (NumExpr.lit 50)))
              (BoolExpr.and_
                (BoolExpr.colGe "ymin"
                  (NumExpr.sub (NumExpr.mbrMinY (Geom.other "point")) (NumExpr.lit 50)))
                (BoolExpr.colLe "ymax"
                  (NumExpr.add (NumExpr.mbrMaxY (Geom.other "point")) (NumExpr.lit 50))))))) :=
  within_distance_indexed_form ⟨⟨(3, 6, 0)⟩⟩ roadsGeom (Geom.other "point") 50 rfl rfl

/-- C2: the code comment states the R-tree is supported since SQLite 3.6.0, so
every version lexicographically at or above 3.6.0 should pass the gate; but the
code compares the minor version with `<= 6`, so version 3.7.0 (which is above
3.6.0) is rejected while 3.5.0 (which is below) is accepted. -/
theorem supports_rtree_rejects_3_7 :
    SQLiteSpatialDialect.supports_rtree ⟨(3, 7, 0)⟩ = false ∧
    SQLiteSpatialDialect.supports_rtree ⟨(3, 5, 0)⟩ = true := by decide

/-- C3: when `geom1` is not a direct geometry column reference, or the column
`spatial_index` flag is false, or `supports_rtree` is false, `_within_distance`
returns exactly `Distance(geom1, geom2) <= distance` with no subquery. -/
theorem within_distance_unindexed_form (compiler : Compiler)
    (geom1 geom2 : Geom) (distance : ℚ)
    (h : (∀ c, geom1 ≠ Geom.col c) ∨
         (∀ c, geom1 = Geom.col c → c.type.spatial_index = false) ∨
         SQLiteSpatialDialect.supports_rtree compiler.dialect = false) :
    sqlite_functions._within_distance compiler geom1 geom2 distance =
      BoolExpr.le (NumExpr.dist geom1 geom2) (NumExpr.lit distance) := by
  cases geom1 with
  | other i => simp [sqlite_functions._within_distance]
  | col c =>
    rcases h with h1 | h2 | h3
    · exact absurd rfl (h1 c)
    · simp [sqlite_functions._within_distance, h2 c rfl]
    · simp [sqlite_functions._within_distance, h3]

/-- C3 witness: a non-column geometry operand falls back to the plain distance
predicate even on an R-tree-capable connection. -/
theorem within_distance_unindexed_form_witness :
    sqlite_functions._within_distance ⟨⟨(3, 6, 0)⟩⟩ (Geom.other "Buffer(g)")
        (Geom.other "point") 50 =
      BoolExpr.le (NumExpr.dist (Geom.other "Buffer(g)") (Geom.other "point"))
        (NumExpr.lit 50) :=
  within_distance_unindexed_form ⟨⟨(3, 6, 0)⟩⟩ (Geom.other "Buffer(g)")
    (Geom.other "point") 50 (Or.inl fun c hc => by cases hc)

/-- C4: `supports_rtree(dialect)` returns true exactly when the reported major
version exceeds 3, or the major version equals 3 and the minor version is at
most 6. -/
theorem supports_rtree_iff (dialect : Dialect) :
    SQLiteSpatialDialect.supports_rtree dialect = true ↔
      dialect.server_version_info.1 > 3 ∨
        (dialect.server_version_info.1 = 3 ∧ dialect.server_version_info.2.1 ≤ 6) := by
  simp [SQLiteSpatialDialect.supports_rtree]

/-- C5: `handle_ddl_after_create` issues `AddGeometryColumn` first and, exactly
when the column has `spatial_index` and `supports_rtree` holds, follows it with
`CreateSpatialIndex` and then `VACUUM`; otherwise the registration statement is
the only one issued. -/
theorem handle_ddl_after_create_sequence (bind : Connection) (t : GeomTable)
    (c : GeometryExtensionColumn) :
    SQLiteSpatialDialect.handle_ddl_after_create bind t c =
      if c.type.spatial_index && SQLiteSpatialDialect.supports_rtree bind.dialect then
        [Stmt.addGeometryColumn t.name c.name c.type.srid c.type.name
           c.type.dimension (if c.nullable then 0 else 1),
         Stmt.createSpatialIndex t.name c.name,
         Stmt.vacuum t.name]
      else
        [Stmt.addGeometryColumn t.name c.name c.type.srid c.type.name
           c.type.dimension (if c.nullable then 0 else 1)] := by
  cases h : (c.type.spatial_index && SQLiteSpatialDialect.supports_rtree bind.dialect) <;>
    simp [SQLiteSpatialDialect.handle_ddl_after_create, h]

/-- C6: `handle_ddl_before_drop` issues `DisableSpatialIndex` then the drop of
the auxiliary index relation exactly when the column has `spatial_index` and
`supports_rtree` holds, and issues `DiscardGeometryColumn` unconditionally as
the last statement — never before the index removal. -/
theorem handle_ddl_before_drop_sequence (bind : Connection) (t : GeomTable)
    (c : GeometryExtensionColumn) :
    SQLiteSpatialDialect.handle_ddl_before_drop bind t c =
      (if c.type.spatial_index && SQLiteSpatialDialect.supports_rtree bind.dialect then
        [Stmt.disableSpatialIndex t.name c.name,
         Stmt.dropTable ("idx_" ++ t.name ++ "_" ++ c.name)]
      else []) ++ [Stmt.discardGeometryColumn t.name c.name] ∧
    (SQLiteSpatialDialect.handle_ddl_before_drop bind t c).getLast? =
      some (Stmt.discardGeometryColumn t.name c.name) := by
  constructor
  · simp [SQLiteSpatialDialect.handle_ddl_before_drop, drop_index_relation]
  · cases h : (c.type.spatial_index && SQLiteSpatialDialect.supports_rtree bind.dialect) <;>
      simp [SQLiteSpatialDialect.handle_ddl_before_drop, h]

/-- C7: the expanded bounding box of the index subquery is monotone in the
distance: for d1 <= d2 the lower x/y bound expressions evaluate no larger at d2
than at d1, and the upper x/y bound expressions evaluate no smaller, under any
valuation of the geometry quantities. -/
theorem index_filter_bounds_monotone (env : GeomEnv) (geom2 : Geom)
    (d1 d2 : ℚ) (h : d1 ≤ d2) :
    ∃ lx1 ux1 ly1 uy1 lx2 ux2 ly2 uy2,
      boundsOf (index_filter_condition geom2 d1) = some (lx1, ux1, ly1, uy1) ∧
      boundsOf (index_filter_condition geom2 d2) = some (lx2, ux2, ly2, uy2) ∧
      lx2.eval env ≤ lx1.eval env ∧ ux1.eval env ≤ ux2.eval env ∧
      ly2.eval env ≤ ly1.eval env ∧ uy1.eval env ≤ uy2.eval env := by
  refine ⟨_, _, _, _, _, _, _, _, rfl, rfl, ?_, ?_, ?_, ?_⟩ <;>
    simp [NumExpr.eval] <;> linarith

/-- A valuation sending every geometry quantity to 0, used to instantiate the
monotonicity statement. -/
def constEnv : GeomEnv :=
  { distVal := fun _ _ => 0
    minX := fun _ => 0
    maxX := fun _ => 0
    minY := fun _ => 0
    maxY := fun _ => 0 }

/-- C7 witness: the monotonicity statement instantiated at the zero valuation,
an opaque geometry and distances 1 <= 2. -/
theorem index_filter_bounds_monotone_witness :
    (1 : ℚ) ≤ 2 ∧
    (∃ lx1 ux1 ly1 uy1 lx2 ux2 ly2 uy2,
      boundsOf (index_filter_condition (Geom.other "point") 1) =
        some (lx1, ux1, ly1, uy1) ∧
      boundsOf (index_filter_condition (Geom.other "point") 2) =
        some (lx2, ux2, ly2, uy2) ∧
      lx2.eval constEnv ≤ lx1.eval constEnv ∧ ux1.eval constEnv ≤ ux2.eval constEnv ∧
      ly2.eval constEnv ≤ ly1.eval constEnv ∧ uy1.eval constEnv ≤ uy2.eval constEnv) :=
  ⟨by norm_num,
   index_filter_bounds_monotone constEnv (Geom.other "point") 1 2 (by norm_num)⟩

/-- C8: the `AddGeometryColumn` statement issued first by
`handle_ddl_after_create` carries exactly the table name, column name, srid,
geometry subtype name and dimension of the column, and a not-null flag that is
0 when the column is nullable and 1 when it is not. -/
theorem addgeometrycolumn_arguments (bind : Connection) (t : GeomTable)
    (c : GeometryExtensionColumn) :
    (SQLiteSpatialDialect.handle_ddl_after_create bind t c).head? =
      some (Stmt.addGeometryColumn t.name c.name c.type.srid c.type.name
        c.type.dimension (if c.nullable then 0 else 1)) := by
  simp [SQLiteSpatialDialect.handle_ddl_after_create]

/-- C9: when a name is resolved by neither the attributes declared on
`sqlite_functions` itself nor the MySQL-dialect set it inherits from, both
adapters resolve it against the shared base spatial-operations set as the final
step, and signal AttributeError (`none`) exactly when that base set also lacks
the name. -/
theorem getattr_base_set_final_fallback
    (mysqlOwn baseCommon : String → Option String) (name : String)
    (h1 : sqlite_own_attr name = none) (h2 : mysqlOwn name = none) :
    SQLiteComparator_getattr mysqlOwn baseCommon name = baseCommon name ∧
    SQLitePersistentSpatialElement_getattr mysqlOwn baseCommon name = baseCommon name ∧
    (SQLiteComparator_getattr mysqlOwn baseCommon name = none ↔
      baseCommon name = none) ∧
    (SQLitePersistentSpatialElement_getattr mysqlOwn baseCommon name = none ↔
      baseCommon name = none) := by
  cases hb : baseCommon name <;>
    simp [SQLiteComparator_getattr, SQLitePersistentSpatialElement_getattr,
      SpatialComparator_getattr, PersistentSpatialElement_getattr,
      sqlite_functions_getattr, h1, h2, hb, Option.orElse]

/-- A sample MySQL-dialect attribute set holding only `mbr_equal`. -/
def sampleMysqlOwn : String → Option String :=
  fun n => if n == "mbr_equal" then some "mysql_functions.mbr_equal" else none

/-- A sample shared base spatial-operations set holding only `length`. -/
def sampleBaseCommon : String → Option String :=
  fun n => if n == "length" then some "functions.length" else none

/-- C9 witness: the name `length` is in neither dialect-specific set, so both
adapters resolve it through the shared base set. -/
theorem getattr_base_set_final_fallback_witness :
    SQLiteComparator_getattr sampleMysqlOwn sampleBaseCommon "length" =
      sampleBaseCommon "length" ∧
    SQLitePersistentSpatialElement_getattr sampleMysqlOwn sampleBaseCommon "length" =
      sampleBaseCommon "length" ∧
    (SQLiteComparator_getattr sampleMysqlOwn sampleBaseCommon "length" = none ↔
      sampleBaseCommon "length" = none) ∧
    (SQLitePersistentSpatialElement_getattr sampleMysqlOwn sampleBaseCommon "length" = none ↔
      sampleBaseCommon "length" = none) :=
  getattr_base_set_final_fallback sampleMysqlOwn sampleBaseCommon "length" rfl rfl

/-- C10 counterexample: on a schema-qualified table the rewrite interpolates
`table.fullname` while the drop hook interpolates `table.name`, so the relation
queried by the rewrite is not the relation dropped for the same table and
column. -/
theorem index_relation_names_differ :
    rewrite_index_relation schemaRoadsGeom = "idx_main.roads_geom" ∧
    drop_index_relation schemaRoadsGeom.table schemaRoadsGeom = "idx_roads_geom" ∧
    rewrite_index_relation schemaRoadsGeom ≠
      drop_index_relation schemaRoadsGeom.table schemaRoadsGeom := by
  refine ⟨rfl, rfl, ?_⟩
  decide

/-- C10 amended: when the table fullname equals its plain name (no schema) and
the column key equals its name, the relation queried by the rewrite
(`idx_<table.fullname>_<column.key>`) is exactly the relation dropped by
`handle_ddl_before_drop` (`idx_<table.name>_<column.name>`). -/
theorem index_relation_names_agree (c : GeometryExtensionColumn)
    (h1 : c.table.fullname = c.table.name) (h2 : c.key = c.name) :
    rewrite_index_relation c = drop_index_relation c.table c := by
  simp [rewrite_index_relation, drop_index_relation, h1, h2]

/-- C10 amended witness: on the unqualified `roads.geom` column the two
relation names coincide. -/
theorem index_relation_names_agree_witness :
    rewrite_index_relation roadsGeom = drop_index_relation roadsGeom.table roadsGeom :=
  index_relation_names_agree roadsGeom rfl rfl
